import Mathlib

/-!
# Sherlock Homes risk-scoring core, shallowly embedded

Shallow embedding of the scoring pipeline of `src/risk_scorer.py` together
with the derived-score formulas of `src/feature_extractor.py` that the
claims touch.  Python floats are modelled as exact rationals (`ℚ`); every
value evaluated by a theorem below is far from any binary-float rounding
boundary, so the rational results coincide with the float ones.  Python's
built-in `round` (banker's rounding, halves to even) is modelled by
`pyRound`.  The externally sourced `ai_analysis` narrative and the
human-readable `risk_factors` / `positive_factors` strings are presentation
glue no claim inspects and are not part of the embedding.
-/

namespace SherlockHomes

/-- Python `round`: nearest integer, halves to the even neighbour. -/
def pyRound (q : ℚ) : ℤ :=
  let f := Int.floor q
  let frac := q - (f : ℚ)
  if frac < 1/2 then f
  else if 1/2 < frac then f + 1
  else if f % 2 = 0 then f else f + 1

/-- `risk_scorer.py` `TRADITIONAL_WEIGHTS`: base weights for the five
traditional factors. -/
def TRADITIONAL_WEIGHTS : String → ℚ
  | "credit_score" => 0.35
  | "dti" => 0.25
  | "ltv" => 0.20
  | "employment" => 0.10
  | "reserves" => 0.10
  | _ => 0

/-- `risk_scorer.py` `MODIFIER_WEIGHTS`: per-term weights for the seven
derived-score modifiers. -/
def MODIFIER_WEIGHTS : String → ℚ
  | "professional_credibility" => 2.0
  | "job_stability" => 2.0
  | "lifestyle_stability" => 1.5
  | "income_lifestyle_alignment" => 1.5
  | "social_support" => 1.0
  | "community_rootedness" => 1.0
  | "relationship_stability" => 1.0
  | _ => 0

/-- `risk_scorer.py` `MAX_MODIFIER_ADJUSTMENT`. -/
def MAX_MODIFIER_ADJUSTMENT : ℚ := 10

/-- `RiskScorer._calculate_credit_risk` (risk_scorer.py lines 236-257). -/
def _calculate_credit_risk (credit_score : ℚ) : ℚ :=
  if credit_score ≥ 800 then 5 + (850 - credit_score) * 0.1
  else if credit_score ≥ 740 then 10 + (799 - credit_score) * 0.17
  else if credit_score ≥ 670 then 20 + (739 - credit_score) * 0.22
  else if credit_score ≥ 580 then 35 + (669 - credit_score) * 0.22
  else 55 + (579 - credit_score) * 0.09

/-- `RiskScorer._calculate_dti_risk` (risk_scorer.py lines 259-280). -/
def _calculate_dti_risk (dti : ℚ) : ℚ :=
  if dti ≤ 20 then 5 + dti * 0.5
  else if dti ≤ 36 then 15 + (dti - 20) * 0.94
  else if dti ≤ 43 then 30 + (dti - 36) * 2.86
  else if dti ≤ 50 then 50 + (dti - 43) * 2.86
  else min (70 + (dti - 50) * 2) 90

/-- `RiskScorer._calculate_ltv_risk` (risk_scorer.py lines 282-303). -/
def _calculate_ltv_risk (ltv : ℚ) : ℚ :=
  if ltv ≤ 60 then 5 + ltv * 0.17
  else if ltv ≤ 80 then 15 + (ltv - 60) * 0.5
  else if ltv ≤ 90 then 25 + (ltv - 80) * 2
  else if ltv ≤ 95 then 45 + (ltv - 90) * 4
  else min (65 + (ltv - 95) * 4) 85

/-- `RiskScorer._calculate_employment_risk` (risk_scorer.py lines 305-323). -/
def _calculate_employment_risk (years : ℚ) : ℚ :=
  if years ≥ 5 then 10 + max 0 (10 - years) * 1
  else if years ≥ 2 then 20 + (5 - years) * 6.67
  else if years ≥ 1 then 40 + (2 - years) * 15
  else 55 + (1 - years) * 15

/-- `RiskScorer._calculate_reserves_risk` (risk_scorer.py lines 325-346). -/
def _calculate_reserves_risk (months : ℚ) : ℚ :=
  if months ≥ 12 then 5 + max 0 (24 - months) * 0.83
  else if months ≥ 6 then 15 + (12 - months) * 2.5
  else if months ≥ 3 then 30 + (6 - months) * 5
  else if months ≥ 1 then 45 + (3 - months) * 7.5
  else 60 + (1 - months) * 15

/-- `feature_extractor.py` `TraditionalFeatures` with its field defaults.
Numeric fields (Python int/float) are rationals. -/
structure TraditionalFeatures where
  credit_score : ℚ := 0
  credit_history_years : ℚ := 0
  annual_income : ℚ := 0
  employment_length_months : ℚ := 0
  is_self_employed : Bool := false
  income_verified : Bool := false
  debt_to_income_ratio : ℚ := 0
  monthly_debt_payments : ℚ := 0
  loan_amount : ℚ := 0
  property_value : ℚ := 0
  loan_to_value_ratio : ℚ := 0
  loan_purpose : String := "purchase"
  property_type : String := "single_family"
  is_primary_residence : Bool := true
  total_assets : ℚ := 0
  liquid_assets : ℚ := 0
  reserves_months : ℚ := 0

/-- `feature_extractor.py` `ProfessionalFeatures` with its field defaults,
derived-score fields included: in the source they are ordinary dataclass
fields a caller may set, defaulting to 0.5. -/
structure ProfessionalFeatures where
  current_job_months : ℚ := 0
  total_experience_years : ℚ := 0
  jobs_last_5_years : ℚ := 0
  career_trajectory : ℚ := 3
  education_level : ℚ := 0
  has_advanced_degree : Bool := false
  industry_stability : ℚ := 0.5
  industry : String := ""
  profile_completeness : ℚ := 0.5
  has_recommendations : Bool := false
  connection_count_tier : ℚ := 2
  employment_gaps : ℚ := 0
  frequent_job_changes : Bool := false
  profile_inconsistencies : ℚ := 0
  job_stability_score : ℚ := 0.5
  professional_credibility_score : ℚ := 0.5

/-- `feature_extractor.py` `LifestyleFeatures` with its field defaults. -/
structure LifestyleFeatures where
  lifestyle_level : ℚ := 3
  apparent_spending_vs_income : ℚ := 0.5
  luxury_items_visible : Bool := false
  frequent_expensive_travel : Bool := false
  vehicle_tier : ℚ := 2
  housing_quality_apparent : ℚ := 2
  appears_homeowner : Bool := false
  location_cost_of_living : ℚ := 0.5
  travel_frequency : ℚ := 2
  expensive_hobbies : Bool := false
  gambling_indicators : Bool := false
  substance_use_indicators : Bool := false
  financial_responsibility_signals : ℚ := 0
  financial_irresponsibility_signals : ℚ := 0
  lifestyle_stability_score : ℚ := 0.5
  income_lifestyle_alignment : ℚ := 0.5

/-- `feature_extractor.py` `SocialConnectednessFeatures` with its field
defaults. -/
structure SocialConnectednessFeatures where
  total_followers_tier : ℚ := 2
  engagement_rate : ℚ := 0.5
  authentic_connections : ℚ := 0.5
  relationship_status : ℚ := 0
  family_presence_in_content : ℚ := 0.5
  appears_stable_relationship : Bool := false
  has_children : Bool := false
  community_involvement : ℚ := 0.5
  group_memberships : ℚ := 0
  volunteer_charity_involvement : Bool := false
  religious_community_ties : Bool := false
  long_term_friendships_visible : Bool := false
  local_community_ties : ℚ := 0.5
  geographic_stability : ℚ := 0.5
  social_isolation_indicators : Bool := false
  conflict_drama_indicators : ℚ := 0
  relationship_instability_signals : ℚ := 0
  social_support_score : ℚ := 0.5
  community_rootedness_score : ℚ := 0.5
  relationship_stability_score : ℚ := 0.5

/-- `feature_extractor.py` `CombinedFeatures`. -/
structure CombinedFeatures where
  traditional : TraditionalFeatures
  professional : ProfessionalFeatures
  lifestyle : LifestyleFeatures
  social : SocialConnectednessFeatures

/-- `FeatureExtractor._calculate_professional_credibility_score`
(feature_extractor.py lines 698-710). -/
def _calculate_professional_credibility_score
    (features : ProfessionalFeatures) : ℚ :=
  let score : ℚ := 0
  let score := score + (features.education_level / 5) * 0.25
  let score := score + min (features.total_experience_years / 20) 1 * 0.25
  let score := score + features.profile_completeness * 0.2
  let score := score + (features.connection_count_tier / 3) * 0.15
  let score := if features.has_recommendations then score + 0.1 else score
  let score := score + features.industry_stability * 0.05
  max 0 (min 1 score)

/-- The application dict passed to `score_application` and
`extract_traditional_features`: one `Option` per key those functions read
(`none` models a missing key; `data.get(k, d)` becomes `Option.getD`). -/
structure Application where
  id : Option String := none
  borrower : Option String := none
  credit_score : Option ℚ := none
  dti : Option ℚ := none
  ltv : Option ℚ := none
  employment_years : Option ℚ := none
  reserves_months : Option ℚ := none
  credit_history_years : Option ℚ := none
  annual_income : Option ℚ := none
  employment_length_months : Option ℚ := none
  is_self_employed : Option Bool := none
  income_verified : Option Bool := none
  monthly_debt_payments : Option ℚ := none
  debt_to_income_ratio : Option ℚ := none
  loan_amount : Option ℚ := none
  property_value : Option ℚ := none
  loan_to_value_ratio : Option ℚ := none
  loan_purpose : Option String := none
  property_type : Option String := none
  is_primary_residence : Option Bool := none
  total_assets : Option ℚ := none
  liquid_assets : Option ℚ := none

/-- `FeatureExtractor.extract_traditional_features`
(feature_extractor.py lines 316-364). -/
def extract_traditional_features (data : Application) : TraditionalFeatures :=
  let credit_score := data.credit_score.getD 0
  let annual_income := data.annual_income.getD 0
  let monthly_debt_payments := data.monthly_debt_payments.getD 0
  let debt_to_income_ratio :=
    if annual_income > 0 then
      let monthly_income := annual_income / 12
      data.debt_to_income_ratio.getD
        (if monthly_income > 0 then monthly_debt_payments / monthly_income else 0)
    else data.debt_to_income_ratio.getD 0
  let loan_amount := data.loan_amount.getD 0
  let property_value := data.property_value.getD 0
  let loan_to_value_ratio :=
    if property_value > 0 then
      data.loan_to_value_ratio.getD (loan_amount / property_value)
    else data.loan_to_value_ratio.getD 0
  { credit_score := credit_score
    credit_history_years := data.credit_history_years.getD 0
    annual_income := annual_income
    employment_length_months := data.employment_length_months.getD 0
    is_self_employed := data.is_self_employed.getD false
    income_verified := data.income_verified.getD false
    debt_to_income_ratio := debt_to_income_ratio
    monthly_debt_payments := monthly_debt_payments
    loan_amount := loan_amount
    property_value := property_value
    loan_to_value_ratio := loan_to_value_ratio
    loan_purpose := data.loan_purpose.getD "purchase"
    property_type := data.property_type.getD "single_family"
    is_primary_residence := data.is_primary_residence.getD true
    total_assets := data.total_assets.getD 0
    liquid_assets := data.liquid_assets.getD 0
    reserves_months := data.reserves_months.getD 0 }

/-- `RiskScorer._calculate_modifiers` (risk_scorer.py lines 352-399).
The Python dict, built by inserting the seven derived-score terms and then
the active flag entries, is modelled as an association list in insertion
order. -/
def _calculate_modifiers (features : CombinedFeatures) : List (String × ℚ) :=
  let modifiers : List (String × ℚ) := [
    ("professional_credibility",
      (0.5 - features.professional.professional_credibility_score) *
        MODIFIER_WEIGHTS "professional_credibility" * 2),
    ("job_stability",
      (0.5 - features.professional.job_stability_score) *
        MODIFIER_WEIGHTS "job_stability" * 2),
    ("lifestyle_stability",
      (0.5 - features.lifestyle.lifestyle_stability_score) *
        MODIFIER_WEIGHTS "lifestyle_stability" * 2),
    ("income_lifestyle_alignment",
      (0.5 - features.lifestyle.income_lifestyle_alignment) *
        MODIFIER_WEIGHTS "income_lifestyle_alignment" * 2),
    ("social_support",
      (0.5 - features.social.social_support_score) *
        MODIFIER_WEIGHTS "social_support" * 2),
    ("community_rootedness",
      (0.5 - features.social.community_rootedness_score) *
        MODIFIER_WEIGHTS "community_rootedness" * 2),
    ("relationship_stability",
      (0.5 - features.social.relationship_stability_score) *
        MODIFIER_WEIGHTS "relationship_stability" * 2)]
  let modifiers := if features.lifestyle.gambling_indicators then
    modifiers ++ [("gambling_flag", 3.0)] else modifiers
  let modifiers := if features.lifestyle.substance_use_indicators then
    modifiers ++ [("substance_flag", 2.0)] else modifiers
  let modifiers := if features.professional.frequent_job_changes then
    modifiers ++ [("job_hopping_flag", 1.5)] else modifiers
  let modifiers := if features.social.social_isolation_indicators then
    modifiers ++ [("isolation_flag", 1.0)] else modifiers
  modifiers

/-- `risk_scorer.py` `RiskReport`, restricted to the fields computed by the
scoring pipeline itself (the externally sourced `ai_analysis` narrative and
the formatted factor strings are presentation glue, not scoring). -/
structure RiskReport where
  application_id : String
  borrower_name : String
  risk_score : ℤ
  risk_category : String
  recommendation : String
  base_score : ℚ
  credit_component : ℚ
  dti_component : ℚ
  ltv_component : ℚ
  employment_component : ℚ
  reserves_component : ℚ
  total_modifier_adjustment : ℚ
  modifier_breakdown : List (String × ℚ)
  credit_score : ℚ
  dti_ratio : ℚ
  ltv_ratio : ℚ

/-- `RiskScorer.score_application` (risk_scorer.py lines 405-553).
In Python the three feature parameters default to `None` and a dataclass
instance is always truthy, so the `if professional_features or
lifestyle_features or social_features` test is an is-not-None test,
modelled by `Option.isSome`. -/
def score_application (application : Application)
    (professional_features : Option ProfessionalFeatures := none)
    (lifestyle_features : Option LifestyleFeatures := none)
    (social_features : Option SocialConnectednessFeatures := none) :
    RiskReport :=
  let app_id := application.id.getD "NEW"
  let borrower := application.borrower.getD "Unknown"
  let credit_score := application.credit_score.getD 680
  let dti := application.dti.getD 36
  let ltv := application.ltv.getD 80
  let employment_years := application.employment_years.getD 2
  let reserves_months := application.reserves_months.getD 3
  let credit_risk := _calculate_credit_risk credit_score
  let dti_risk := _calculate_dti_risk dti
  let ltv_risk := _calculate_ltv_risk ltv
  let employment_risk := _calculate_employment_risk employment_years
  let reserves_risk := _calculate_reserves_risk reserves_months
  let base_score :=
    credit_risk * TRADITIONAL_WEIGHTS "credit_score" +
    dti_risk * TRADITIONAL_WEIGHTS "dti" +
    ltv_risk * TRADITIONAL_WEIGHTS "ltv" +
    employment_risk * TRADITIONAL_WEIGHTS "employment" +
    reserves_risk * TRADITIONAL_WEIGHTS "reserves"
  let featuresSupplied := professional_features.isSome ||
    lifestyle_features.isSome || social_features.isSome
  let modifier_breakdown :=
    if featuresSupplied then
      _calculate_modifiers
        { traditional := extract_traditional_features application
          professional := professional_features.getD {}
          lifestyle := lifestyle_features.getD {}
          social := social_features.getD {} }
    else []
  let total_modifier :=
    if featuresSupplied then
      max (-MAX_MODIFIER_ADJUSTMENT)
        (min MAX_MODIFIER_ADJUSTMENT ((modifier_breakdown.map Prod.snd).sum))
    else 0
  let final_score := base_score + total_modifier
  let final_score := max 0 (min 100 final_score)
  let risk_score := pyRound final_score
  let category_recommendation :=
    if risk_score ≤ 25 then ("Low", "Approve")
    else if risk_score ≤ 45 then ("Moderate", "Approve with Conditions")
    else if risk_score ≤ 65 then ("Elevated", "Manual Review Required")
    else if risk_score ≤ 80 then ("High", "Decline Recommended")
    else ("Very High", "Decline")
  { application_id := app_id
    borrower_name := borrower
    risk_score := risk_score
    risk_category := category_recommendation.1
    recommendation := category_recommendation.2
    base_score := base_score
    credit_component := credit_risk
    dti_component := dti_risk
    ltv_component := ltv_risk
    employment_component := employment_risk
    reserves_component := reserves_risk
    total_modifier_adjustment := total_modifier
    modifier_breakdown := modifier_breakdown
    credit_score := credit_score
    dti_ratio := dti
    ltv_ratio := ltv }

/-- The Robert Blake fixture `LN-2024-08469` (risk_scorer.py lines 81-97),
restricted to the keys `score_application` reads. -/
def robertBlake : Application :=
  { id := some "LN-2024-08469"
    borrower := some "Robert Blake"
    ltv := some 95.6
    credit_score := some 580
    annual_income := some 320000
    monthly_debt_payments := some 4500
    dti := some 48
    employment_years := some 1
    reserves_months := some 1
    loan_amount := some 2150000
    property_value := some 2250000 }

/-! ## Helper lemmas -/

lemma le_pyRound {n : ℤ} {q : ℚ} (h : (n : ℚ) ≤ q) : n ≤ pyRound q := by
  have hf : n ≤ Int.floor q := Int.le_floor.mpr h
  unfold pyRound
  dsimp only
  split_ifs <;> omega

lemma pyRound_le {q : ℚ} {n : ℤ} (h : q ≤ (n : ℚ)) : pyRound q ≤ n := by
  have hf : Int.floor q ≤ n := by
    have h2 := Int.floor_le_floor h
    simpa using h2
  have hkey : ¬(q - (Int.floor q : ℚ) < 1/2) → Int.floor q < n := by
    intro hno
    rcases lt_or_eq_of_le hf with h' | h'
    · exact h'
    · exfalso
      apply hno
      have hq : q ≤ (Int.floor q : ℚ) := by rw [h']; exact_mod_cast h
      linarith
  unfold pyRound
  dsimp only
  split_ifs with h1 h2 h3
  · exact hf
  · have := hkey h1; omega
  · exact hf
  · have := hkey h1; omega

lemma cond_append_split (b : Bool) (l : List (String × ℚ)) (x : String × ℚ) :
    (if b then l ++ [x] else l) = l ++ (if b then [x] else []) := by
  cases b <;> simp

lemma mw_prof_cred : MODIFIER_WEIGHTS "professional_credibility" = 2.0 := by
  unfold MODIFIER_WEIGHTS; norm_num

lemma mw_job_stab : MODIFIER_WEIGHTS "job_stability" = 2.0 := by
  unfold MODIFIER_WEIGHTS; norm_num

lemma mw_lifestyle_stab : MODIFIER_WEIGHTS "lifestyle_stability" = 1.5 := by
  unfold MODIFIER_WEIGHTS; norm_num

lemma mw_income_align : MODIFIER_WEIGHTS "income_lifestyle_alignment" = 1.5 := by
  unfold MODIFIER_WEIGHTS; norm_num

lemma mw_social_support : MODIFIER_WEIGHTS "social_support" = 1.0 := by
  unfold MODIFIER_WEIGHTS; norm_num

lemma mw_community : MODIFIER_WEIGHTS "community_rootedness" = 1.0 := by
  unfold MODIFIER_WEIGHTS; norm_num

lemma mw_relationship : MODIFIER_WEIGHTS "relationship_stability" = 1.0 := by
  unfold MODIFIER_WEIGHTS; norm_num

lemma blake_report_eval :
    (score_application robertBlake).risk_score = 60 ∧
    (score_application robertBlake).risk_category = "Elevated" ∧
    (score_application robertBlake).recommendation = "Manual Review Required" := by
  refine ⟨?_, ?_, ?_⟩ <;>
    norm_num [score_application, robertBlake, _calculate_credit_risk,
      _calculate_dti_risk, _calculate_ltv_risk, _calculate_employment_risk,
      _calculate_reserves_risk, TRADITIONAL_WEIGHTS, pyRound]

/-! ## Claims -/

/-- C1 counterexample: on the Robert Blake inputs (credit 580, dti 48,
ltv 95.6, employment 1, reserves 1, no feature groups) `score_application`
does not return category "Very High" / recommendation "Decline" with a
risk score in the 80s; the unweighted components give base
54.58·0.35 + 64.3·0.25 + 67.4·0.20 + 55·0.10 + 60·0.10 = 60.158, which
rounds to 60. -/
theorem blake_fixture_not_very_high :
    ¬((score_application robertBlake).risk_category = "Very High" ∧
      (score_application robertBlake).recommendation = "Decline" ∧
      80 ≤ (score_application robertBlake).risk_score ∧
      (score_application robertBlake).risk_score ≤ 89) := by
  intro hcl
  have h := blake_report_eval
  rw [h.2.1] at hcl
  exact absurd hcl.1 (by decide)

/-- C1 amended: on the Robert Blake inputs (credit 580, dti 48, ltv 95.6,
employment 1, reserves 1, no feature groups) `score_application` returns
risk score 60, category "Elevated", recommendation "Manual Review
Required" — not the fixture's stored dashboard score of 84. -/
theorem blake_fixture_scores_elevated :
    (score_application robertBlake).risk_score = 60 ∧
    (score_application robertBlake).risk_category = "Elevated" ∧
    (score_application robertBlake).recommendation = "Manual Review Required" :=
  blake_report_eval

/-- C2: the credit risk curve is not monotonically non-increasing on
[300, 850]: raising the credit score from 739 to 740 raises the risk
component from 20 to 20.03, contradicting the function's own docstring
("Higher credit score = lower risk", band "740-799: Very Good (10-20
risk)"). -/
theorem credit_risk_not_monotone_at_740 :
    _calculate_credit_risk 739 = 20 ∧ _calculate_credit_risk 740 = 20.03 ∧
    _calculate_credit_risk 739 < _calculate_credit_risk 740 := by
  norm_num [_calculate_credit_risk]

/-- C3 counterexample: `_calculate_credit_risk` at exactly 800 does not
return 5.0 (it returns 5 + (850 − 800)·0.1 = 10). -/
theorem credit_risk_at_800_ne_five : _calculate_credit_risk 800 ≠ 5 := by
  norm_num [_calculate_credit_risk]

/-- C3 amended: `_calculate_credit_risk` applied to a credit score of
exactly 800 returns exactly 10.0; the value 5.0 is attained at 850. -/
theorem credit_risk_at_800_eq_ten :
    _calculate_credit_risk 800 = 10 ∧ _calculate_credit_risk 850 = 5 := by
  norm_num [_calculate_credit_risk]

/-- C4 counterexample: at the claim's own example input credit_score = 0,
the credit component is 55 + 579·0.09 = 107.11, which exceeds 100. -/
theorem credit_risk_at_zero_exceeds_100 :
    _calculate_credit_risk 0 = 107.11 ∧ 100 < _calculate_credit_risk 0 := by
  norm_num [_calculate_credit_risk]

/-- C4 amended: the dti and ltv components never exceed 100 for any
rational input; the credit, employment and reserves components never
exceed 100 on their documented domains (credit score in [300, 850],
employment years ≥ 0, reserves months ≥ 0).  Outside those domains the
unclamped linear tails can exceed 100, as the counterexample shows. -/
theorem components_le_100_on_domains (dti ltv s y m : ℚ)
    (hs1 : 300 ≤ s) (hs2 : s ≤ 850) (hy : 0 ≤ y) (hm : 0 ≤ m) :
    _calculate_dti_risk dti ≤ 100 ∧ _calculate_ltv_risk ltv ≤ 100 ∧
    _calculate_credit_risk s ≤ 100 ∧ _calculate_employment_risk y ≤ 100 ∧
    _calculate_reserves_risk m ≤ 100 := by
  have hs850 : s ≤ 850 := hs2
  refine ⟨?_, ?_, ?_, ?_, ?_⟩
  · unfold _calculate_dti_risk
    split_ifs with h1 h2 h3 h4
    · linarith
    · linarith
    · linarith
    · linarith
    · exact le_trans (min_le_right _ _) (by norm_num)
  · unfold _calculate_ltv_risk
    split_ifs with h1 h2 h3 h4
    · linarith
    · linarith
    · linarith
    · linarith
    · exact le_trans (min_le_right _ _) (by norm_num)
  · unfold _calculate_credit_risk
    split_ifs with h1 h2 h3 h4
    · linarith
    · linarith
    · linarith
    · linarith
    · linarith
  · unfold _calculate_employment_risk
    split_ifs with h1 h2 h3
    · have hb : max 0 (10 - y) ≤ 5 := max_le (by norm_num) (by linarith)
      linarith
    · linarith
    · linarith
    · linarith
  · unfold _calculate_reserves_risk
    split_ifs with h1 h2 h3 h4
    · have hb : max 0 (24 - m) ≤ 12 := max_le (by norm_num) (by linarith)
      linarith
    · linarith
    · linarith
    · linarith
    · linarith

/-- C4 amended, witness: the bounds instantiated at dti = 1000,
ltv = 1000, credit = 300, employment = 0, reserves = 0. -/
theorem components_le_100_on_domains_witness :
    _calculate_dti_risk 1000 ≤ 100 ∧ _calculate_ltv_risk 1000 ≤ 100 ∧
    _calculate_credit_risk 300 ≤ 100 ∧ _calculate_employment_risk 0 ≤ 100 ∧
    _calculate_reserves_risk 0 ≤ 100 :=
  components_le_100_on_domains 1000 1000 300 0 0 (by norm_num) (by norm_num)
    (by norm_num) (by norm_num)

/-- C5: for every application and every combination of supplied feature
groups, the report's risk score is an integer in [0, 100] and equals the
banker's rounding of the base score plus the capped modifier, clamped to
[0, 100]. -/
theorem risk_score_int_in_range_eq_rounded_clamp (app : Application)
    (pf : Option ProfessionalFeatures) (lf : Option LifestyleFeatures)
    (sf : Option SocialConnectednessFeatures) :
    0 ≤ (score_application app pf lf sf).risk_score ∧
    (score_application app pf lf sf).risk_score ≤ 100 ∧
    (score_application app pf lf sf).risk_score =
      pyRound (max 0 (min 100 ((score_application app pf lf sf).base_score +
        (score_application app pf lf sf).total_modifier_adjustment))) := by
  have hr : (score_application app pf lf sf).risk_score =
      pyRound (max 0 (min 100 ((score_application app pf lf sf).base_score +
        (score_application app pf lf sf).total_modifier_adjustment))) := rfl
  refine ⟨?_, ?_, hr⟩
  · rw [hr]
    exact le_pyRound (by push_cast; exact le_max_left _ _)
  · rw [hr]
    refine pyRound_le ?_
    push_cast
    exact max_le (by norm_num) (min_le_left _ _)

/-- C6: for every application and every combination of supplied feature
groups, the report's total modifier adjustment lies in [−10, +10]. -/
theorem total_modifier_within_pm_ten (app : Application)
    (pf : Option ProfessionalFeatures) (lf : Option LifestyleFeatures)
    (sf : Option SocialConnectednessFeatures) :
    -10 ≤ (score_application app pf lf sf).total_modifier_adjustment ∧
    (score_application app pf lf sf).total_modifier_adjustment ≤ 10 := by
  have ht : (score_application app pf lf sf).total_modifier_adjustment =
      (if pf.isSome || lf.isSome || sf.isSome then
        max (-MAX_MODIFIER_ADJUSTMENT) (min MAX_MODIFIER_ADJUSTMENT
          (((score_application app pf lf sf).modifier_breakdown.map Prod.snd).sum))
      else 0) := rfl
  rw [ht]
  constructor
  · split_ifs
    · simp only [ MAX_MODIFIER_ADJUSTMENT]
      exact le_max_left _ _
    · norm_num
  · split_ifs
    · simp only [ MAX_MODIFIER_ADJUSTMENT]
      exact max_le (by norm_num) (le_trans (min_le_left _ _) (by norm_num))
    · norm_num

/-- C7: every modifier breakdown contains, for each of the 7 derived
scores, the term (0.5 − score) × weight × 2 with the documented per-term
weight, and a fixed flat penalty entry for each boolean flag that is set
(gambling +3, substance use +2, job hopping +1.5, isolation +1); in the
scenario where all stored derived scores are exactly 0.5 and only
gambling_indicators is set, the report's breakdown maps gambling_flag to
3.0 and the total modifier adjustment is 3.0. -/
theorem modifier_terms_and_flags :
    (∀ c : CombinedFeatures,
      ("professional_credibility",
        (0.5 - c.professional.professional_credibility_score) * 2.0 * 2) ∈
          _calculate_modifiers c ∧
      ("job_stability",
        (0.5 - c.professional.job_stability_score) * 2.0 * 2) ∈
          _calculate_modifiers c ∧
      ("lifestyle_stability",
        (0.5 - c.lifestyle.lifestyle_stability_score) * 1.5 * 2) ∈
          _calculate_modifiers c ∧
      ("income_lifestyle_alignment",
        (0.5 - c.lifestyle.income_lifestyle_alignment) * 1.5 * 2) ∈
          _calculate_modifiers c ∧
      ("social_support",
        (0.5 - c.social.social_support_score) * 1.0 * 2) ∈
          _calculate_modifiers c ∧
      ("community_rootedness",
        (0.5 - c.social.community_rootedness_score) * 1.0 * 2) ∈
          _calculate_modifiers c ∧
      ("relationship_stability",
        (0.5 - c.social.relationship_stability_score) * 1.0 * 2) ∈
          _calculate_modifiers c ∧
      (c.lifestyle.gambling_indicators = true →
        ("gambling_flag", (3.0 : ℚ)) ∈ _calculate_modifiers c) ∧
      (c.lifestyle.substance_use_indicators = true →
        ("substance_flag", (2.0 : ℚ)) ∈ _calculate_modifiers c) ∧
      (c.professional.frequent_job_changes = true →
        ("job_hopping_flag", (1.5 : ℚ)) ∈ _calculate_modifiers c) ∧
      (c.social.social_isolation_indicators = true →
        ("isolation_flag", (1.0 : ℚ)) ∈ _calculate_modifiers c)) ∧
    (∀ (app : Application) (pf : ProfessionalFeatures) (lf : LifestyleFeatures)
        (sf : SocialConnectednessFeatures),
      pf.professional_credibility_score = 0.5 → pf.job_stability_score = 0.5 →
      lf.lifestyle_stability_score = 0.5 → lf.income_lifestyle_alignment = 0.5 →
      sf.social_support_score = 0.5 → sf.community_rootedness_score = 0.5 →
      sf.relationship_stability_score = 0.5 →
      lf.gambling_indicators = true → lf.substance_use_indicators = false →
      pf.frequent_job_changes = false → sf.social_isolation_indicators = false →
      (score_application app (some pf) (some lf) (some sf)).modifier_breakdown.lookup
          "gambling_flag" = some 3 ∧
      (score_application app (some pf) (some lf) (some sf)).total_modifier_adjustment
        = 3) := by
  constructor
  · intro c
    unfold _calculate_modifiers
    dsimp only
    simp only [cond_append_split]
    refine ⟨?_, ?_, ?_, ?_, ?_, ?_, ?_, fun h => ?_, fun h => ?_, fun h => ?_,
      fun h => ?_⟩
    · simp [mw_prof_cred]
    · simp [mw_job_stab]
    · simp [mw_lifestyle_stab]
    · simp [mw_income_align]
    · simp [mw_social_support]
    · simp [mw_community]
    · simp [mw_relationship]
    · simp [h]
    · simp [h]
    · simp [h]
    · simp [h]
  · intro app pf lf sf h1 h2 h3 h4 h5 h6 h7 hg hs hj hi
    have hb : (score_application app (some pf) (some lf) (some sf)).modifier_breakdown =
        _calculate_modifiers
          { traditional := extract_traditional_features app
            professional := pf, lifestyle := lf, social := sf } := rfl
    have hm : _calculate_modifiers
        { traditional := extract_traditional_features app
          professional := pf, lifestyle := lf, social := sf } =
        [("professional_credibility", 0), ("job_stability", 0),
         ("lifestyle_stability", 0), ("income_lifestyle_alignment", 0),
         ("social_support", 0), ("community_rootedness", 0),
         ("relationship_stability", 0), ("gambling_flag", 3)] := by
      unfold _calculate_modifiers
      dsimp only
      rw [h1, h2, h3, h4, h5, h6, h7, hg, hs, hj, hi]
      norm_num [ MODIFIER_WEIGHTS]
    have ht : (score_application app (some pf) (some lf) (some sf)).total_modifier_adjustment =
        max (-MAX_MODIFIER_ADJUSTMENT) (min MAX_MODIFIER_ADJUSTMENT
          (((score_application app (some pf) (some lf) (some sf)).modifier_breakdown.map
            Prod.snd).sum)) := rfl
    constructor
    · rw [hb, hm]
      simp [List.lookup]
    · rw [ht, hb, hm]
      norm_num [ MAX_MODIFIER_ADJUSTMENT]

/-- C7 witness: all-default feature structs (every stored derived score is
0.5) with only gambling_indicators set give a breakdown whose
gambling_flag entry is 3 and a total modifier adjustment of 3. -/
theorem modifier_terms_and_flags_witness :
    (score_application {} (some {}) (some { gambling_indicators := true })
        (some {})).modifier_breakdown.lookup "gambling_flag" = some 3 ∧
    (score_application {} (some {}) (some { gambling_indicators := true })
        (some {})).total_modifier_adjustment = 3 :=
  modifier_terms_and_flags.2 {} {} { gambling_indicators := true } {}
    rfl rfl rfl rfl rfl rfl rfl rfl rfl rfl rfl

/-- C8: when none of the three optional feature groups is supplied, the
report's total modifier adjustment is 0 and its modifier breakdown is the
empty map. -/
theorem no_feature_groups_skips_modifiers (app : Application) :
    (score_application app none none none).total_modifier_adjustment = 0 ∧
    (score_application app none none none).modifier_breakdown = [] :=
  ⟨rfl, rfl⟩

/-- C9 counterexample: the all-defaults ProfessionalFeatures struct stores
professional_credibility_score = 0.5, while the documented derived-score
formula applied to its own raw default fields yields
0.5·0.2 + (2/3)·0.15 + 0.5·0.05 = 0.225 — the stored score is not the
formula of the raw fields. -/
theorem default_professional_stored_ne_formula :
    ({} : ProfessionalFeatures).professional_credibility_score ≠
      _calculate_professional_credibility_score ({} : ProfessionalFeatures) := by
  norm_num [_calculate_professional_credibility_score]

/-- C9 amended: derived scores are ordinary stored dataclass fields
(default 0.5) that the modifier stage reads as-is; they are recomputed from
raw fields only when the extractor builds a struct.  On the all-defaults
ProfessionalFeatures the stored professional_credibility_score is 0.5
while the formula on the default raw fields gives 0.225. -/
theorem derived_scores_are_stored_fields :
    ({} : ProfessionalFeatures).professional_credibility_score = 0.5 ∧
    _calculate_professional_credibility_score ({} : ProfessionalFeatures) = 0.225 := by
  norm_num [_calculate_professional_credibility_score]

/-- C10: when the application dict lacks the keys credit_score, dti, ltv,
employment_years and reserves_months, `score_application` totally (without
raising) substitutes the defaults 680, 36, 80, 2 and 3 and computes every
component from them. -/
theorem missing_keys_substitute_defaults (app : Application)
    (h1 : app.credit_score = none) (h2 : app.dti = none) (h3 : app.ltv = none)
    (h4 : app.employment_years = none) (h5 : app.reserves_months = none) :
    (score_application app).credit_score = 680 ∧
    (score_application app).dti_ratio = 36 ∧
    (score_application app).ltv_ratio = 80 ∧
    (score_application app).credit_component = _calculate_credit_risk 680 ∧
    (score_application app).dti_component = _calculate_dti_risk 36 ∧
    (score_application app).ltv_component = _calculate_ltv_risk 80 ∧
    (score_application app).employment_component = _calculate_employment_risk 2 ∧
    (score_application app).reserves_component = _calculate_reserves_risk 3 := by
  simp [score_application, h1, h2, h3, h4, h5]

/-- C10 witness: the empty application (every key missing) is scored from
the defaults 680, 36, 80, 2 and 3. -/
theorem missing_keys_substitute_defaults_witness :
    (score_application {}).credit_score = 680 ∧
    (score_application {}).dti_ratio = 36 ∧
    (score_application {}).ltv_ratio = 80 ∧
    (score_application {}).credit_component = _calculate_credit_risk 680 ∧
    (score_application {}).dti_component = _calculate_dti_risk 36 ∧
    (score_application {}).ltv_component = _calculate_ltv_risk 80 ∧
    (score_application {}).employment_component = _calculate_employment_risk 2 ∧
    (score_application {}).reserves_component = _calculate_reserves_risk 3 :=
  missing_keys_substitute_defaults {} rfl rfl rfl rfl rfl

end SherlockHomes
